import Mathlib

/-!
Shallow embedding of the NEXUS Python worker (`src/workers/main.py`).

The worker polls a control plane for pending tasks, dispatches each task to a
handler selected by its `"type"` field from a fixed registry, and posts each
result back over HTTP.  We model JSON values, Python dictionary access and
truthiness, and every externally visible effect (HTTP requests, handler
invocations, log lines) as an explicit event trace.  External nondeterminism
(network outcomes, the clock, whether `httpx` is importable) is packaged in an
`Env` record; the Python functions become pure Lean functions from `Env` and
their arguments to event traces, with Python exception flow made explicit via
`Except` exactly where the source can raise.
-/

/-- JSON-like values: the payloads exchanged with the control plane. -/
inductive JVal where
  | str (s : String)
  | num (n : Int)
  | bool (b : Bool)
  | null
  | arr (xs : List JVal)
  | obj (fields : List (String × JVal))

/-- A Python dict with string keys, as produced by parsing a JSON object. -/
def Obj := List (String × JVal)

/-- Python exceptions are modelled by their message. -/
abbrev PyErr := String

/-- Python `d.get(k)`: first binding of `k`, `None` (`Option.none`) if absent. -/
def dictGet (o : Obj) (k : String) : Option JVal :=
  match o with
  | [] => none
  | (k', v) :: rest => if k' = k then some v else dictGet rest k

/-- Python truthiness of a JSON value (`bool(v)`). -/
def pyTruthy : JVal → Bool
  | .str s => s != ""
  | .num n => n != 0
  | .bool b => b
  | .null => false
  | .arr xs => !xs.isEmpty
  | .obj fs => !fs.isEmpty

/-- Python truthiness of a possibly-absent value (`None` is falsy). -/
def pyTruthyOpt : Option JVal → Bool
  | none => false
  | some v => pyTruthy v

/-- Rendering `str(v)` as used in f-strings and log formatting.  Only the rendering of
strings is ever relied on by a claim; the rendering of structured values is
abstracted. -/
def pyStr : JVal → String
  | .str s => s
  | .num n => toString n
  | .bool b => if b then "True" else "False"
  | .null => "None"
  | .arr _ => "<list>"
  | .obj _ => "<dict>"

/-- The four bound methods installed in `self.task_handlers` in
`NexusWorker.__init__`. -/
inductive HandlerName where
  | fetch_hackernews
  | fetch_crypto_prices
  | send_telegram
  | health_ping
deriving DecidableEq

/-- Log severities used by the worker (`logging` levels). -/
inductive Level where
  | debug
  | info
  | warning
  | error
deriving DecidableEq

/-- Externally visible effects of one piece of worker code, in order. -/
inductive Event where
  | fetchAttempt (url : String)
  | invoke (h : HandlerName) (task : Obj)
  | postAttempt (url : String) (body : Obj)
  | log (lvl : Level) (msg : String)

/-- The environment: everything outside the worker's own control flow.
`fetchOutcome` is the result of `client.get(f"{NEXUS_API}/api/tasks/pending")`
followed by `resp.json()` (an exception covers unreachable daemon, timeout and
malformed JSON alike); `netHandler` gives the outcome of the three handlers
that perform network I/O (result dict or raised exception); `postOutcome` is
the outcome of the report POST; `now` is `datetime.utcnow().isoformat()`. -/
structure Env where
  httpx : Bool
  nexus_api : String
  now : String
  fetchOutcome : Except PyErr (Nat × JVal)
  netHandler : HandlerName → Obj → Except PyErr Obj
  postOutcome : String → Obj → Except PyErr Unit

/-- Worker state: the `running` flag and the handler registry built in
`__init__`.  The registry is part of the state precisely so that its
immutability across operations is a provable property, not a modelling
artifact. -/
structure Worker where
  running : Bool
  task_handlers : List (String × HandlerName)

namespace NexusWorker

/-- Constructor `NexusWorker.__init__`: `running = False`, fixed handler table. -/
def init : Worker :=
  { running := false
    task_handlers :=
      [("fetch_hn", .fetch_hackernews),
       ("fetch_crypto", .fetch_crypto_prices),
       ("send_telegram", .send_telegram),
       ("health_ping", .health_ping)] }

/-- Lookup `self.task_handlers.get(task_type)`.  Python dict lookup hashes the key:
a string key is looked up in the table, other hashable values (numbers,
booleans, None) are simply absent, and unhashable values (lists, dicts) raise
`TypeError` before any lookup happens. -/
def registryGet (reg : List (String × HandlerName)) :
    JVal → Except PyErr (Option HandlerName)
  | .str s => .ok (reg.lookup s)
  | .num _ => .ok none
  | .bool _ => .ok none
  | .null => .ok none
  | .arr _ => .error "TypeError: unhashable type: list"
  | .obj _ => .error "TypeError: unhashable type: dict"

/-- Handler `health_ping` (lines 169-171): pure, always status ok. -/
def health_ping (env : Env) (_task : Obj) : Obj :=
  [("status", .str "ok"), ("worker", .str "nexus-python"), ("ts", .str env.now)]

/-- Invoking `handler(task)`.  `health_ping` is translated concretely; the
three network handlers each return `{"error": "httpx not available"}` when
`httpx` is missing (their first line) and are otherwise opaque upstream
interactions whose outcome the environment supplies. -/
def runHandler (env : Env) (h : HandlerName) (task : Obj) : Except PyErr Obj :=
  match h with
  | .health_ping => .ok (health_ping env task)
  | h' =>
    if env.httpx then env.netHandler h' task
    else .ok [("error", .str "httpx not available")]

/-- URL of the result endpoint, `f"{NEXUS_API}/api/tasks/{task_id}/result"`. -/
def resultUrl (env : Env) (tid : JVal) : String :=
  env.nexus_api ++ "/api/tasks/" ++ pyStr tid ++ "/result"

/-- URL of the pending-tasks endpoint. -/
def pendingUrl (env : Env) : String :=
  env.nexus_api ++ "/api/tasks/pending"

/-- Reporter `report_result` (lines 173-184): skip silently when `httpx` is missing or
`task_id` is falsy (`None` or empty); otherwise POST the result and swallow
any exception (`except Exception: pass`).  Total: it never raises. -/
def report_result (env : Env) (task_id : Option JVal) (result : Obj) :
    List Event :=
  match task_id with
  | none => []
  | some tid =>
    if ¬ env.httpx ∨ ¬ pyTruthy tid then []
    else
      match env.postOutcome (resultUrl env tid) result with
      | .ok _ => [.postAttempt (resultUrl env tid) result]
      | .error _ => [.postAttempt (resultUrl env tid) result]

/-- Binding `task_type = task.get("type", "")` (line 85). -/
def taskTypeOf (task : Obj) : JVal :=
  (dictGet task "type").getD (.str "")

/-- Executor `execute_task` (lines 83-95).  The only statement that can raise outside
the `try` block is the registry lookup (unhashable `"type"` value), and it
sits before any logging, so a raise carries no prior events and `Except`
suffices.  Inside the `try`, a handler exception is caught and logged;
`report_result` never raises. -/
def execute_task (w : Worker) (env : Env) (task : Obj) :
    Except PyErr (List Event) :=
  match registryGet w.task_handlers (taskTypeOf task) with
  | .error e => .error e
  | .ok (some h) =>
    .ok ([.log .info ("Executing task: " ++ pyStr (taskTypeOf task)),
          .invoke h task] ++
      match runHandler env h task with
      | .ok result => report_result env (dictGet task "id") result
      | .error e =>
        [.log .error ("Task " ++ pyStr (taskTypeOf task) ++ " failed: " ++ e)])
  | .ok none => .ok [.log .warning ("Unknown task type: " ++ pyStr (taskTypeOf task))]

/-- The loop `for task in tasks: await self.execute_task(task)` inside the `try` of
`poll_and_execute`.  A list element that is not a dict makes `task.get`
raise `AttributeError`; an unhashable `"type"` propagates `TypeError`; either
aborts the remainder of the batch and escapes to the enclosing `except`. -/
def runTasks (w : Worker) (env : Env) : List JVal → List Event × Option PyErr
  | [] => ([], none)
  | t :: rest =>
    match t with
    | .obj fields =>
      match execute_task w env fields with
      | .ok evs =>
        let r := runTasks w env rest
        (evs ++ r.1, r.2)
      | .error e => ([], some e)
    | _ => ([], some "AttributeError: no attribute get")

/-- Python iteration over the value of `resp.json().get("tasks", [])`:
lists iterate their elements, strings their characters, dicts their keys;
numbers and booleans raise `TypeError`. -/
def toIter : JVal → Option (List JVal)
  | .arr xs => some xs
  | .str s => some (s.toList.map (fun c => JVal.str (String.mk [c])))
  | .obj fs => some (fs.map (fun p => JVal.str p.1))
  | _ => none

/-- What one cycle does after issuing the pending-task GET: inspect the
response (or the raised exception), run the returned batch, and catch any
exception of the `try` body with a DEBUG log.  A non-200 response is skipped
without any log line. -/
def pollBody (w : Worker) (env : Env) : List Event :=
  match env.fetchOutcome with
  | .error e => [.log .debug ("Daemon not reachable: " ++ e)]
  | .ok (status, body) =>
    if status = 200 then
      match body with
      | .obj bf =>
        match toIter ((dictGet bf "tasks").getD (.arr [])) with
        | some ts =>
          match runTasks w env ts with
          | (evs, none) => evs
          | (evs, some e) => evs ++ [.log .debug ("Daemon not reachable: " ++ e)]
        | none => [.log .debug "Daemon not reachable: TypeError: not iterable"]
      | _ => [.log .debug "Daemon not reachable: AttributeError: no attribute get"]
    else []

/-- One cycle, `poll_and_execute` (lines 68-81).  Total: with `httpx`
importable it always issues exactly one pending-task GET and then processes
the outcome; every exception of the `try` body is caught and logged at
DEBUG severity. -/
def poll_and_execute (w : Worker) (env : Env) : List Event :=
  if ¬ env.httpx then [.log .warning "httpx not installed - skipping task poll"]
  else .fetchAttempt (pendingUrl env) :: pollBody w env

/-- Method `stop` (lines 63-66): clear the running flag. -/
def worker_stop (w : Worker) : Worker := { w with running := false }

/-- The state on entry to the loop of `start` (line 54): `running = True`. -/
def afterStart : Worker := { init with running := true }

/-- The loop of `start` (lines 56-61), unrolled by cycle count.  Each cycle
runs `poll_and_execute` under `try/except` (which, poll being total, only
forwards its events) and then sleeps; `stop n = true` models the external
stop signal being delivered during cycle `n`, so the `while` condition fails
before cycle `n+1`.  Returns the worker state and the cumulative trace after
`n` cycles. -/
def runLoop (envs : Nat → Env) (stop : Nat → Bool) : Nat → Worker × List Event
  | 0 => (afterStart, [])
  | n + 1 =>
    match runLoop envs stop n with
    | (w, tr) =>
      if w.running then
        (if stop n then worker_stop w else w, tr ++ poll_and_execute w (envs n))
      else (w, tr)

/-- The worker state before cycle `n`. -/
def loopWorker (envs : Nat → Env) (stop : Nat → Bool) (n : Nat) : Worker :=
  (runLoop envs stop n).1

/-- The events of cycle `n` alone (empty if the loop has stopped). -/
def cycleEvents (envs : Nat → Env) (stop : Nat → Bool) (n : Nat) : List Event :=
  if (loopWorker envs stop n).running then
    poll_and_execute (loopWorker envs stop n) (envs n)
  else []

end NexusWorker

/-! Classifiers over event traces, used to state the claims. -/

/-- Is this event a handler invocation? -/
def isInvoke : Event → Bool
  | .invoke _ _ => true
  | _ => false

/-- Is this event an HTTP POST of a result? -/
def isPostAttempt : Event → Bool
  | .postAttempt _ _ => true
  | _ => false

/-- Is this event an HTTP POST of a result to the given URL? -/
def isPostTo (url : String) : Event → Bool
  | .postAttempt u _ => u == url
  | _ => false

/-- Is this event the pending-task GET? -/
def isFetchAttempt : Event → Bool
  | .fetchAttempt _ => true
  | _ => false

/-- Every log line in the trace is at DEBUG severity (nothing louder). -/
def lowSeverityOnly (evs : List Event) : Bool :=
  evs.all fun e =>
    match e with
    | .log .debug _ => true
    | .log _ _ => false
    | _ => true

/-- Python values that a dict can hash as a key (not a list or dict). -/
def hashableKey : JVal → Bool
  | .arr _ => false
  | .obj _ => false
  | _ => true

/-- The environment makes the pending-task fetch fail: network/JSON exception
or a non-2xx (here: non-200, as the code tests) status. -/
def fetchFails (env : Env) : Prop :=
  (∃ e, env.fetchOutcome = .error e) ∨
  (∃ s b, env.fetchOutcome = .ok (s, b) ∧ s ≠ 200)

/-- The while-condition of the loop after `n` cycles: no stop signal was
delivered during cycles `0..n-1`. -/
def stillRunning (stop : Nat → Bool) : Nat → Bool
  | 0 => true
  | n + 1 => stillRunning stop n && !stop n

/-- The events of `execute_task` when it returns normally (empty on raise);
used to state batch-trace decompositions. -/
def execEvents (w : Worker) (env : Env) (t : Obj) : List Event :=
  match NexusWorker.execute_task w env t with
  | .ok evs => evs
  | .error _ => []

/-! Concrete inputs for the scenario claims and witnesses. -/

/-- A quiescent environment: httpx importable, default base URL, fetch
failing with a connection error, handlers and posts succeeding trivially. -/
def baseEnv : Env :=
  { httpx := true
    nexus_api := "http://localhost:7700"
    now := "2025-01-01T00:00:00"
    fetchOutcome := .error "ConnectError"
    netHandler := fun _ _ => .ok []
    postOutcome := fun _ _ => .ok () }

/-- An environment whose fetch succeeds with the given task list. -/
def tasksEnv (ts : List JVal) : Env :=
  { baseEnv with fetchOutcome := .ok (200, .obj [("tasks", .arr ts)]) }

/-- Scenario task `{"id":"t2","type":"bogus"}`. -/
def bogusTask : Obj := [("id", .str "t2"), ("type", .str "bogus")]

/-- Scenario task `{"id":"t1","type":"health-check"}` (the spec's name). -/
def healthDashTask : Obj := [("id", .str "t1"), ("type", .str "health-check")]

/-- Scenario task `{"id":"t1","type":"health_ping"}` (the registry's name). -/
def healthPingTask : Obj := [("id", .str "t1"), ("type", .str "health_ping")]

/-- A task routed to the crypto handler, used with a raising environment. -/
def cryptoTask : Obj := [("id", .str "t3"), ("type", .str "fetch_crypto")]

/-- Environment for the bogus-type scenario. -/
def bogusEnv : Env := tasksEnv [.obj bogusTask]

/-- Environment for the health-check scenario as the spec words it. -/
def healthDashEnv : Env := tasksEnv [.obj healthDashTask]

/-- Environment for the health-check scenario with the registry's type name. -/
def healthPingEnv : Env := tasksEnv [.obj healthPingTask]

/-- Environment in which every network handler raises. -/
def raisingEnv : Env :=
  { tasksEnv [.obj cryptoTask] with netHandler := fun _ _ => .error "boom" }

/-- Batch of two tasks: first of unknown type with id t7, then a valid
health ping with id t8. -/
def mixedEnv : Env :=
  tasksEnv [.obj [("id", .str "t7"), ("type", .str "nope")],
            .obj [("id", .str "t8"), ("type", .str "health_ping")]]

/-! General lemmas about the embedding, shared across claims. -/

/-- The reporter collapses to: post once when `httpx` is importable and the
id is truthy, otherwise do nothing — the POST outcome is never consulted
(the `except` clause is `pass`). -/
theorem report_result_eq (env : Env) (tid : Option JVal) (r : Obj) :
    NexusWorker.report_result env tid r =
      match tid with
      | none => []
      | some t =>
        if ¬ env.httpx ∨ ¬ pyTruthy t then []
        else [.postAttempt (NexusWorker.resultUrl env t) r] := by
  cases tid with
  | none => rfl
  | some t =>
    show (if ¬ env.httpx ∨ ¬ pyTruthy t then []
          else match env.postOutcome (NexusWorker.resultUrl env t) r with
               | .ok _ => [Event.postAttempt (NexusWorker.resultUrl env t) r]
               | .error _ => [Event.postAttempt (NexusWorker.resultUrl env t) r]) =
         (if ¬ env.httpx ∨ ¬ pyTruthy t then []
          else [Event.postAttempt (NexusWorker.resultUrl env t) r])
    split
    · rfl
    · cases env.postOutcome (NexusWorker.resultUrl env t) r <;> rfl

/-- The reporter's trace does not depend on the outcome of the POST. -/
theorem report_result_update_post (env : Env) (p : String → Obj → Except PyErr Unit)
    (tid : Option JVal) (r : Obj) :
    NexusWorker.report_result { env with postOutcome := p } tid r =
      NexusWorker.report_result env tid r := by
  rw [report_result_eq, report_result_eq]
  cases tid with
  | none => rfl
  | some t => rfl

/-- Handler outcomes do not depend on the outcome of the POST. -/
theorem runHandler_update_post (env : Env) (p : String → Obj → Except PyErr Unit)
    (h : HandlerName) (task : Obj) :
    NexusWorker.runHandler { env with postOutcome := p } h task =
      NexusWorker.runHandler env h task := by
  cases h <;> rfl

/-- The executor's behaviour does not depend on the outcome of the POST. -/
theorem execute_task_update_post (w : Worker) (env : Env)
    (p : String → Obj → Except PyErr Unit) (task : Obj) :
    NexusWorker.execute_task w { env with postOutcome := p } task =
      NexusWorker.execute_task w env task := by
  unfold NexusWorker.execute_task
  simp only [runHandler_update_post, report_result_update_post]

/-- A whole batch's trace does not depend on the outcome of any POST. -/
theorem runTasks_update_post (w : Worker) (env : Env)
    (p : String → Obj → Except PyErr Unit) :
    ∀ ts, NexusWorker.runTasks w { env with postOutcome := p } ts =
      NexusWorker.runTasks w env ts
  | [] => rfl
  | t :: rest => by
    cases t with
    | obj fields =>
      simp only [NexusWorker.runTasks, execute_task_update_post,
        runTasks_update_post w env p rest]
    | str s => rfl
    | num n => rfl
    | bool b => rfl
    | null => rfl
    | arr xs => rfl

/-- A whole cycle's trace does not depend on the outcome of any POST. -/
theorem poll_update_post (w : Worker) (env : Env)
    (p : String → Obj → Except PyErr Unit) :
    NexusWorker.poll_and_execute w { env with postOutcome := p } =
      NexusWorker.poll_and_execute w env := by
  have hb : NexusWorker.pollBody w { env with postOutcome := p } =
      NexusWorker.pollBody w env := by
    unfold NexusWorker.pollBody
    have hfo : ({ env with postOutcome := p } : Env).fetchOutcome =
        env.fetchOutcome := rfl
    rw [hfo]
    simp only [runTasks_update_post]
  unfold NexusWorker.poll_and_execute
  rw [hb]
  rfl

/-- If no stop signal arrived before cycle `n`, the while-condition holds. -/
theorem stillRunning_of_no_stop (stop : Nat → Bool) :
    ∀ n, (∀ k, k < n → stop k = false) → stillRunning stop n = true
  | 0, _ => rfl
  | n + 1, h => by
    have ih := stillRunning_of_no_stop stop n fun k hk => h k (Nat.lt_succ_of_lt hk)
    simp [stillRunning, ih, h n (Nat.lt_succ_self n)]

/-- The while-condition fails exactly when some earlier cycle saw the stop
signal. -/
theorem stillRunning_false_iff (stop : Nat → Bool) :
    ∀ n, (stillRunning stop n = false ↔ ∃ k, k < n ∧ stop k = true)
  | 0 => by simp [stillRunning]
  | n + 1 => by
    constructor
    · intro h
      by_cases hs : stop n = true
      · exact ⟨n, Nat.lt_succ_self n, hs⟩
      · have hs' : stop n = false := by
          cases hv : stop n
          · rfl
          · exact absurd hv hs
        have hfalse : stillRunning stop n = false := by
          have h' := h
          rw [stillRunning, hs'] at h'
          simpa using h'
        obtain ⟨k, hk, hks⟩ := (stillRunning_false_iff stop n).mp hfalse
        exact ⟨k, Nat.lt_succ_of_lt hk, hks⟩
    · rintro ⟨k, hk, hks⟩
      rcases Nat.lt_succ_iff_lt_or_eq.mp hk with h' | h'
      · have := (stillRunning_false_iff stop n).mpr ⟨k, h', hks⟩
        simp [stillRunning, this]
      · subst h'
        simp [stillRunning, hks]

/-- The loop state after `n` cycles: the registry built by the constructor,
unchanged, and the running flag governed solely by the stop schedule. -/
theorem loopWorker_eq (envs : Nat → Env) (stop : Nat → Bool) :
    ∀ n, NexusWorker.loopWorker envs stop n =
      ⟨stillRunning stop n, NexusWorker.init.task_handlers⟩
  | 0 => rfl
  | n + 1 => by
    have ih := loopWorker_eq envs stop n
    unfold NexusWorker.loopWorker at ih ⊢
    rcases hr : NexusWorker.runLoop envs stop n with ⟨w, tr⟩
    rw [hr] at ih
    simp only at ih
    subst ih
    simp only [NexusWorker.runLoop, hr]
    cases hsr : stillRunning stop n with
    | true =>
      cases hst : stop n with
      | true => simp [NexusWorker.worker_stop, stillRunning, hsr, hst]
      | false => simp [stillRunning, hsr, hst]
    | false => simp [stillRunning, hsr]

/-- While the loop is running, cycle `n` is exactly one `poll_and_execute`. -/
theorem cycleEvents_of_running (envs : Nat → Env) (stop : Nat → Bool) (n : Nat)
    (h : (NexusWorker.loopWorker envs stop n).running = true) :
    NexusWorker.cycleEvents envs stop n =
      NexusWorker.poll_and_execute (NexusWorker.loopWorker envs stop n) (envs n) := by
  unfold NexusWorker.cycleEvents
  rw [if_pos h]

/-- With `httpx` importable, a cycle is the pending-task GET followed by the
body's events. -/
theorem poll_fetch_first (w : Worker) (env : Env) (hx : env.httpx = true) :
    NexusWorker.poll_and_execute w env =
      Event.fetchAttempt (NexusWorker.pendingUrl env) :: NexusWorker.pollBody w env := by
  unfold NexusWorker.poll_and_execute
  rw [hx]
  simp

/-- A failing fetch leaves the cycle body empty (non-200: silently skipped)
or a single DEBUG log line (exception caught by the cycle-boundary catch). -/
theorem pollBody_fetch_failure (w : Worker) (env : Env) (hf : fetchFails env) :
    NexusWorker.pollBody w env = [] ∨
    ∃ e, NexusWorker.pollBody w env = [Event.log .debug ("Daemon not reachable: " ++ e)] := by
  rcases hf with ⟨e, he⟩ | ⟨s, b, hok, hs⟩
  · right
    exact ⟨e, by unfold NexusWorker.pollBody; rw [he]⟩
  · left
    unfold NexusWorker.pollBody
    rw [hok]
    simp [hs]

/-! Claim C1. -/

/-- C1, counterexample: with the control plane returning
`{"tasks": [{"id":"t2","type":"bogus"}]}`, the cycle's whole trace is the
GET plus one WARNING log line — no handler is invoked, but also no
TaskResult is produced and nothing is posted for `t2`, contradicting the
claim that an "unknown task type" error result is posted. -/
theorem c1_counterexample :
    NexusWorker.poll_and_execute NexusWorker.afterStart bogusEnv =
      [.fetchAttempt "http://localhost:7700/api/tasks/pending",
       .log .warning "Unknown task type: bogus"] ∧
    (NexusWorker.poll_and_execute NexusWorker.afterStart bogusEnv).filter
      isPostAttempt = [] ∧
    (NexusWorker.poll_and_execute NexusWorker.afterStart bogusEnv).filter
      isInvoke = [] :=
  ⟨rfl, rfl, rfl⟩

/-- C1 (amended): for every task whose type is a string that is not a key of
the handler registry, `execute_task` only logs a warning naming the unknown
type; it never invokes any handler and posts nothing to the control plane —
no error TaskResult is produced or reported. -/
theorem c1_unknown_type_unreported (w : Worker) (env : Env) (task : Obj)
    (s : String)
    (htype : NexusWorker.taskTypeOf task = .str s)
    (habs : w.task_handlers.lookup s = none) :
    NexusWorker.execute_task w env task =
      .ok [.log .warning ("Unknown task type: " ++ s)] ∧
    ([Event.log .warning ("Unknown task type: " ++ s)]).filter isInvoke = [] ∧
    ([Event.log .warning ("Unknown task type: " ++ s)]).filter isPostAttempt = [] := by
  refine ⟨?_, by simp [List.filter, isInvoke], by simp [List.filter, isPostAttempt]⟩
  unfold NexusWorker.execute_task
  rw [htype]
  simp [NexusWorker.registryGet, habs, pyStr]

/-- C1, witness: the hypotheses hold and the conclusion evaluates on the
bogus-type task. -/
theorem c1_witness :
    NexusWorker.taskTypeOf bogusTask = .str "bogus" ∧
    NexusWorker.afterStart.task_handlers.lookup "bogus" = none ∧
    NexusWorker.execute_task NexusWorker.afterStart baseEnv bogusTask =
      .ok [.log .warning "Unknown task type: bogus"] := by
  refine ⟨rfl, rfl, ?_⟩
  exact (c1_unknown_type_unreported NexusWorker.afterStart baseEnv bogusTask
    "bogus" rfl rfl).1

/-! Claim C2. -/

/-- C2, counterexample: the crypto handler raises, and the cycle's whole
trace is GET, INFO log, the invocation, and one ERROR log line — no
TaskResult carrying an error field is produced, and nothing is posted,
contradicting the claim that the executor produces a structured error
TaskResult. -/
theorem c2_counterexample :
    NexusWorker.poll_and_execute NexusWorker.afterStart raisingEnv =
      [.fetchAttempt "http://localhost:7700/api/tasks/pending",
       .log .info "Executing task: fetch_crypto",
       .invoke .fetch_crypto_prices cryptoTask,
       .log .error "Task fetch_crypto failed: boom"] ∧
    (NexusWorker.poll_and_execute NexusWorker.afterStart raisingEnv).filter
      isPostAttempt = [] :=
  ⟨rfl, rfl⟩

/-- C2 (amended): for every task whose handler raises, `execute_task` does
not crash: it catches the exception and logs an ERROR line carrying the task
type and the message, produces and reports no TaskResult, and the batch loop
continues with the remaining tasks undisturbed. -/
theorem c2_handler_error_logged (w : Worker) (env : Env) (task : Obj)
    (s : String) (h : HandlerName) (e : PyErr) (rest : List JVal)
    (htype : NexusWorker.taskTypeOf task = .str s)
    (hreg : w.task_handlers.lookup s = some h)
    (hrun : NexusWorker.runHandler env h task = .error e) :
    NexusWorker.execute_task w env task =
      .ok [.log .info ("Executing task: " ++ s), .invoke h task,
           .log .error ("Task " ++ s ++ " failed: " ++ e)] ∧
    NexusWorker.runTasks w env (.obj task :: rest) =
      ([.log .info ("Executing task: " ++ s), .invoke h task,
        .log .error ("Task " ++ s ++ " failed: " ++ e)]
          ++ (NexusWorker.runTasks w env rest).1,
       (NexusWorker.runTasks w env rest).2) := by
  have h1 : NexusWorker.execute_task w env task =
      .ok [.log .info ("Executing task: " ++ s), .invoke h task,
           .log .error ("Task " ++ s ++ " failed: " ++ e)] := by
    unfold NexusWorker.execute_task
    rw [htype]
    simp [NexusWorker.registryGet, hreg, hrun, pyStr]
  refine ⟨h1, ?_⟩
  simp only [NexusWorker.runTasks, h1]

/-- C2, witness: the hypotheses hold and the conclusion evaluates on the
crypto task in the raising environment. -/
theorem c2_witness :
    NexusWorker.taskTypeOf cryptoTask = .str "fetch_crypto" ∧
    NexusWorker.afterStart.task_handlers.lookup "fetch_crypto" =
      some .fetch_crypto_prices ∧
    NexusWorker.runHandler raisingEnv .fetch_crypto_prices cryptoTask =
      .error "boom" ∧
    NexusWorker.execute_task NexusWorker.afterStart raisingEnv cryptoTask =
      .ok [.log .info "Executing task: fetch_crypto",
           .invoke .fetch_crypto_prices cryptoTask,
           .log .error "Task fetch_crypto failed: boom"] := by
  refine ⟨rfl, rfl, rfl, ?_⟩
  exact (c2_handler_error_logged NexusWorker.afterStart raisingEnv cryptoTask
    "fetch_crypto" .fetch_crypto_prices "boom" [] rfl rfl rfl).1

/-! Claim C3. -/

/-- C3, counterexample: the registry's keys are `fetch_hn`, `fetch_crypto`,
`send_telegram` and `health_ping`; for the claim's task type `health-check`
no handler resolves, so the cycle only logs a warning: nothing is invoked
and nothing is posted to `/api/tasks/t1/result`. -/
theorem c3_counterexample :
    NexusWorker.poll_and_execute NexusWorker.afterStart healthDashEnv =
      [.fetchAttempt "http://localhost:7700/api/tasks/pending",
       .log .warning "Unknown task type: health-check"] ∧
    (NexusWorker.poll_and_execute NexusWorker.afterStart healthDashEnv).filter
      isInvoke = [] ∧
    (NexusWorker.poll_and_execute NexusWorker.afterStart healthDashEnv).filter
      isPostAttempt = [] :=
  ⟨rfl, rfl, rfl⟩

/-- C3 (amended): when the control plane returns
`{"tasks": [{"id":"t1","type":"health_ping"}]}` (the registry's name for the
health check), the executor resolves the `health_ping` handler, the handler's
payload carries `"status": "ok"`, and the reporter posts exactly that payload
to `/api/tasks/t1/result`. -/
theorem c3_health_ping_scenario :
    NexusWorker.poll_and_execute NexusWorker.afterStart healthPingEnv =
      [.fetchAttempt (NexusWorker.pendingUrl healthPingEnv),
       .log .info "Executing task: health_ping",
       .invoke .health_ping healthPingTask,
       .postAttempt "http://localhost:7700/api/tasks/t1/result"
         (NexusWorker.health_ping healthPingEnv healthPingTask)] ∧
    dictGet (NexusWorker.health_ping healthPingEnv healthPingTask) "status" =
      some (.str "ok") :=
  ⟨rfl, rfl⟩

/-- Helper: the executor returns normally on every task whose type value the
registry dict can hash (exceptions from the handler are caught inside the
`try`, the reporter never raises). -/
theorem execute_task_ok_of_hashable (w : Worker) (env : Env) (t : Obj)
    (h : hashableKey (NexusWorker.taskTypeOf t) = true) :
    ∃ evs, NexusWorker.execute_task w env t = .ok evs := by
  unfold NexusWorker.execute_task
  cases hv : NexusWorker.taskTypeOf t with
  | str s =>
    cases hl : w.task_handlers.lookup s with
    | some hh =>
      simp only [NexusWorker.registryGet]
      rw [hl]
      exact ⟨_, rfl⟩
    | none =>
      simp only [NexusWorker.registryGet]
      rw [hl]
      exact ⟨_, rfl⟩
  | num n => exact ⟨_, rfl⟩
  | bool b => exact ⟨_, rfl⟩
  | null => exact ⟨_, rfl⟩
  | arr xs =>
    rw [hv] at h
    simp [hashableKey] at h
  | obj fs =>
    rw [hv] at h
    simp [hashableKey] at h

/-! Claim C4. -/

/-- C4 (confirmed): in any cycle whose pending-task fetch fails — the GET or
JSON decode raises, or the response status is not 200 — no handler is
invoked and nothing is posted (zero tasks executed), every log line of the
cycle is at DEBUG severity, and the loop, not having been stopped, issues a
fresh pending-task GET at the start of the next cycle. -/
theorem c4_fetch_failure_skips_cycle (envs : Nat → Env) (stop : Nat → Bool)
    (n : Nat)
    (hstop : ∀ k, k ≤ n → stop k = false)
    (hx : (envs n).httpx = true)
    (hf : fetchFails (envs n))
    (hx2 : (envs (n + 1)).httpx = true) :
    (NexusWorker.cycleEvents envs stop n).filter isInvoke = [] ∧
    (NexusWorker.cycleEvents envs stop n).filter isPostAttempt = [] ∧
    lowSeverityOnly (NexusWorker.cycleEvents envs stop n) = true ∧
    ∃ rest, NexusWorker.cycleEvents envs stop (n + 1) =
      Event.fetchAttempt (NexusWorker.pendingUrl (envs (n + 1))) :: rest := by
  have hrun : (NexusWorker.loopWorker envs stop n).running = true := by
    rw [loopWorker_eq]
    exact stillRunning_of_no_stop stop n fun k hk => hstop k (Nat.le_of_lt hk)
  have hrun2 : (NexusWorker.loopWorker envs stop (n + 1)).running = true := by
    rw [loopWorker_eq]
    exact stillRunning_of_no_stop stop (n + 1) fun k hk =>
      hstop k (Nat.lt_succ_iff.mp hk)
  have htr : NexusWorker.cycleEvents envs stop n =
      Event.fetchAttempt (NexusWorker.pendingUrl (envs n)) ::
        NexusWorker.pollBody (NexusWorker.loopWorker envs stop n) (envs n) := by
    rw [cycleEvents_of_running envs stop n hrun, poll_fetch_first _ _ hx]
  have hnext : ∃ rest, NexusWorker.cycleEvents envs stop (n + 1) =
      Event.fetchAttempt (NexusWorker.pendingUrl (envs (n + 1))) :: rest := by
    rw [cycleEvents_of_running envs stop (n + 1) hrun2, poll_fetch_first _ _ hx2]
    exact ⟨_, rfl⟩
  rcases pollBody_fetch_failure (NexusWorker.loopWorker envs stop n) (envs n) hf
    with hb | ⟨e, hb⟩
  · rw [htr, hb]
    exact ⟨rfl, rfl, rfl, hnext⟩
  · rw [htr, hb]
    exact ⟨rfl, rfl, rfl, hnext⟩

/-- C4, witness: hypotheses and conclusion evaluated with a constantly
unreachable daemon and no stop signal. -/
theorem c4_witness :
    (∀ k : Nat, k ≤ 0 → (fun _ : Nat => false) k = false) ∧
    fetchFails baseEnv ∧
    ((NexusWorker.cycleEvents (fun _ => baseEnv) (fun _ => false) 0).filter
        isInvoke = [] ∧
      (NexusWorker.cycleEvents (fun _ => baseEnv) (fun _ => false) 0).filter
        isPostAttempt = [] ∧
      lowSeverityOnly
        (NexusWorker.cycleEvents (fun _ => baseEnv) (fun _ => false) 0) = true ∧
      ∃ rest, NexusWorker.cycleEvents (fun _ => baseEnv) (fun _ => false) 1 =
        Event.fetchAttempt (NexusWorker.pendingUrl baseEnv) :: rest) := by
  refine ⟨fun k _ => rfl, Or.inl ⟨"ConnectError", rfl⟩, ?_⟩
  exact c4_fetch_failure_skips_cycle (fun _ => baseEnv) (fun _ => false) 0
    (fun k _ => rfl) rfl (Or.inl ⟨"ConnectError", rfl⟩) rfl

/-! Claim C5. -/

/-- C5 (confirmed): whatever happens inside the cycles — the per-cycle
environments carry every possible error — the loop state is unaffected:
it is identical under any two environment schedules, and the running flag
is false exactly when some earlier cycle received the external stop signal.
No error condition can terminate the loop. -/
theorem c5_loop_stops_only_on_signal (envs envs' : Nat → Env)
    (stop : Nat → Bool) (n : Nat) :
    NexusWorker.loopWorker envs stop n = NexusWorker.loopWorker envs' stop n ∧
    ((NexusWorker.loopWorker envs stop n).running = false ↔
      ∃ k, k < n ∧ stop k = true) := by
  constructor
  · rw [loopWorker_eq, loopWorker_eq]
  · rw [loopWorker_eq]
    exact stillRunning_false_iff stop n

/-! Claim C6. -/

/-- C6 (confirmed): the reporter swallows every transport failure: its trace
— and, beyond it, the trace of the whole batch and of the whole cycle — is
identical no matter what outcome the POST has, so a lost or failed report
cannot affect any subsequent task in the same or later cycles; and the
reporter never retries: it attempts at most one POST per call. -/
theorem c6_report_failure_isolated (env : Env)
    (p : String → Obj → Except PyErr Unit)
    (tid : Option JVal) (r : Obj) (w : Worker) (ts : List JVal) :
    NexusWorker.report_result { env with postOutcome := p } tid r =
      NexusWorker.report_result env tid r ∧
    ((NexusWorker.report_result env tid r).filter isPostAttempt).length ≤ 1 ∧
    NexusWorker.runTasks w { env with postOutcome := p } ts =
      NexusWorker.runTasks w env ts ∧
    NexusWorker.poll_and_execute w { env with postOutcome := p } =
      NexusWorker.poll_and_execute w env := by
  refine ⟨report_result_update_post env p tid r, ?_,
    runTasks_update_post w env p ts, poll_update_post w env p⟩
  rw [report_result_eq]
  cases tid with
  | none => simp
  | some t =>
    show (List.filter isPostAttempt
      (if ¬ env.httpx ∨ ¬ pyTruthy t then []
       else [Event.postAttempt (NexusWorker.resultUrl env t) r])).length ≤ 1
    split
    · simp
    · simp [List.filter, isPostAttempt]

/-! Claim C7. -/

/-- C7, counterexample: a successfully fetched batch of two tasks where the
first task `t7` has an unregistered type: the trace shows the batch is
processed, yet no report for `t7` is ever made — contradicting the claim that
for each task execute is followed by a report of that task's result. -/
theorem c7_counterexample :
    NexusWorker.poll_and_execute NexusWorker.afterStart mixedEnv =
      [.fetchAttempt "http://localhost:7700/api/tasks/pending",
       .log .warning "Unknown task type: nope",
       .log .info "Executing task: health_ping",
       .invoke .health_ping [("id", .str "t8"), ("type", .str "health_ping")],
       .postAttempt "http://localhost:7700/api/tasks/t8/result"
         [("status", .str "ok"), ("worker", .str "nexus-python"),
          ("ts", .str "2025-01-01T00:00:00")]] ∧
    (NexusWorker.poll_and_execute NexusWorker.afterStart mixedEnv).filter
      (isPostTo "http://localhost:7700/api/tasks/t7/result") = [] :=
  ⟨rfl, rfl⟩

/-- C7 (amended): tasks of a fetched batch are processed strictly
sequentially in the order received: the batch trace is the concatenation of
the per-task traces, so each task's execute step — including any result
report it performs — completes before the next task is touched.  A report
occurs inside a task's segment only when its handler succeeds and its id is
truthy; unknown-type or failing tasks contribute only log lines. -/
theorem c7_sequential_in_order (w : Worker) (env : Env) :
    ∀ ts : List Obj,
      (∀ t ∈ ts, hashableKey (NexusWorker.taskTypeOf t) = true) →
      NexusWorker.runTasks w env (ts.map JVal.obj) =
        ((ts.map (execEvents w env)).flatten, none)
  | [], _ => rfl
  | t :: rest, h => by
    obtain ⟨evs, hevs⟩ :=
      execute_task_ok_of_hashable w env t (h t (List.mem_cons_self t rest))
    have ih := c7_sequential_in_order w env rest
      fun u hu => h u (List.mem_cons_of_mem t hu)
    simp only [List.map, NexusWorker.runTasks, hevs, ih, execEvents,
      List.flatten_cons]

/-- C7, witness: hypotheses and conclusion evaluated on a two-task batch. -/
theorem c7_witness :
    (∀ t ∈ ([healthPingTask, [("type", JVal.str "zzz")]] : List Obj),
      hashableKey (NexusWorker.taskTypeOf t) = true) ∧
    NexusWorker.runTasks NexusWorker.afterStart baseEnv
      ([healthPingTask, [("type", JVal.str "zzz")]].map JVal.obj) =
      (([healthPingTask, [("type", JVal.str "zzz")]].map
        (execEvents NexusWorker.afterStart baseEnv)).flatten, none) := by
  have hall : ∀ t ∈ ([healthPingTask, [("type", JVal.str "zzz")]] : List Obj),
      hashableKey (NexusWorker.taskTypeOf t) = true := by
    intro t ht
    cases ht with
    | head => rfl
    | tail _ ht2 =>
      cases ht2 with
      | head => rfl
      | tail _ ht3 => cases ht3
  exact ⟨hall, c7_sequential_in_order NexusWorker.afterStart baseEnv _ hall⟩

/-! Claim C8. -/

/-- C8 (confirmed): the registry is the fixed four-entry table built by the
constructor, and it is immutable configuration: starting, any number of
cycles with any environments and stop schedule, and stopping all leave the
task-type-to-handler mapping exactly as built (the executor, poller and
reporter only read it — they return traces, not states). -/
theorem c8_registry_fixed (envs : Nat → Env) (stop : Nat → Bool) (n : Nat)
    (w : Worker) :
    NexusWorker.init.task_handlers =
      [("fetch_hn", .fetch_hackernews), ("fetch_crypto", .fetch_crypto_prices),
       ("send_telegram", .send_telegram), ("health_ping", .health_ping)] ∧
    NexusWorker.afterStart.task_handlers = NexusWorker.init.task_handlers ∧
    (NexusWorker.worker_stop w).task_handlers = w.task_handlers ∧
    (NexusWorker.loopWorker envs stop n).task_handlers =
      NexusWorker.init.task_handlers := by
  refine ⟨rfl, rfl, rfl, ?_⟩
  rw [loopWorker_eq]

/-! Claim C9. -/

/-- C9 (confirmed): for a task with no "id" field (`task.get("id")` is None)
or a falsy id (such as the empty string), the reporter performs no HTTP
request at all and returns silently — the result, even of a successful task,
is never delivered. -/
theorem c9_falsy_id_not_reported (env : Env) (tid : Option JVal) (r : Obj)
    (h : pyTruthyOpt tid = false) :
    NexusWorker.report_result env tid r = [] := by
  cases tid with
  | none => rfl
  | some t =>
    have ht : pyTruthy t = false := h
    rw [report_result_eq]
    simp [ht]

/-- C9, witness: the empty-string id is falsy and nothing is posted. -/
theorem c9_witness :
    pyTruthyOpt (some (JVal.str "")) = false ∧
    NexusWorker.report_result baseEnv (some (JVal.str "")) [] = [] :=
  ⟨rfl, c9_falsy_id_not_reported baseEnv (some (.str "")) [] rfl⟩

/-! Claim C10. -/

/-- C10, counterexample: a task dict whose "type" value is a list makes
`self.task_handlers.get(task_type)` hash an unhashable key; the TypeError
arises before the `try` block, so `execute_task` raises to its caller —
refuting totality over arbitrary task dictionaries. -/
theorem c10_counterexample :
    NexusWorker.execute_task NexusWorker.afterStart baseEnv
      [("type", JVal.arr [])] = .error "TypeError: unhashable type: list" :=
  rfl

/-- C10 (amended): `execute_task` returns normally for every task dict whose
"type" value is hashable (absent, string, number, boolean or null) — in
particular a missing "type" key is treated as "" and falls into the
unknown-task-type branch — and every exception from handler invocation or
result reporting is caught inside.  Only an unhashable "type" value (list or
dict) escapes to the caller. -/
theorem c10_total_on_hashable_type (w : Worker) (env : Env) (task : Obj)
    (h : hashableKey (NexusWorker.taskTypeOf task) = true) :
    (∃ evs, NexusWorker.execute_task w env task = .ok evs) ∧
    (dictGet task "type" = none →
      NexusWorker.execute_task NexusWorker.afterStart env task =
        .ok [.log .warning "Unknown task type: "]) := by
  refine ⟨execute_task_ok_of_hashable w env task h, fun hmiss => ?_⟩
  have ht : NexusWorker.taskTypeOf task = .str "" := by
    unfold NexusWorker.taskTypeOf
    rw [hmiss]
    rfl
  unfold NexusWorker.execute_task
  rw [ht]
  rfl

/-- C10, witness: a task with no "type" key executes normally and lands in
the unknown-task-type branch. -/
theorem c10_witness :
    hashableKey (NexusWorker.taskTypeOf [("payload", JVal.str "x")]) = true ∧
    (∃ evs, NexusWorker.execute_task NexusWorker.afterStart baseEnv
      [("payload", JVal.str "x")] = .ok evs) ∧
    NexusWorker.execute_task NexusWorker.afterStart baseEnv
      [("payload", JVal.str "x")] = .ok [.log .warning "Unknown task type: "] := by
  have h := c10_total_on_hashable_type NexusWorker.afterStart baseEnv
    [("payload", JVal.str "x")] rfl
  exact ⟨rfl, h.1, h.2 rfl⟩
